import Mathlib

/-!
Verification development for the BYAC staking-dashboard repository.

The definitions below are a shallow embedding of the TypeScript sources:

- `src/src/components/StakingDashboard.tsx` (stake/unstake/claim/restake
  handlers, `calculateAPR`, `fetchData`, the claim-button disabled predicate);
- `src/src/contracts/StakingContract.ts` (`getStakingStats`, `getUserStats`,
  `checkRole`);
- `src/src/utils/alchemy.ts` (`retryOperation`, `getValidatorData`,
  `getTokenBalance`);
- the deployment script (`validateEnvironment`, `deploy`);
- the admin dashboard (`handleDepositRewards`).

Remote calls are modelled by explicit parameters: each contract read or
transaction submission is represented by an `Except String` result or by a
boolean success flag in an environment record, and each handler returns the
ordered list of remote actions it performed together with the error (if any)
that the corresponding JavaScript code would have thrown.  `uint256` values
are modelled as `Nat` (the handlers only compare and pass them through, so no
overflow arises), and JavaScript float arithmetic in `calculateAPR` is
modelled exactly over `ℚ`.
-/

namespace BYAC

/-! ### Decimal amounts and viem parseEther / formatEther

The amount inputs of the dashboard are filtered by the regular expression
`/^\d*\.?\d*$/` (digits with at most one decimal point).  `Amount` is the
abstract form of such an accepted string: an integer part and the list of
fractional digits.  `parseEther` converts to the 18-decimal base-unit
integer exactly as `viem`'s `parseEther` does for inputs with at most 18
fractional digits (beyond 18 digits viem rounds; the claims only concern
inputs within the bound, which theorems state as a hypothesis). -/
structure Amount where
  ip : Nat
  fd : List (Fin 10)
deriving DecidableEq, Repr

/-- Numeric value of a fractional-digit list read left to right. -/
def fracNat (fd : List (Fin 10)) : Nat :=
  fd.foldl (fun acc d => 10 * acc + d.val) 0

/-- The rational value denoted by an accepted decimal input string. -/
def amountVal (a : Amount) : ℚ :=
  (a.ip : ℚ) + (fracNat a.fd : ℚ) / 10 ^ a.fd.length

/-- viem parseEther: decimal string to 18-decimal base units (exact for
inputs with at most 18 fractional digits). -/
def parseEther (a : Amount) : Nat :=
  a.ip * 10 ^ 18 + fracNat a.fd * 10 ^ (18 - a.fd.length)

/-- The rational value denoted by the string `formatEther` renders for `n`
base units: `formatUnits` prints the integer part, a dot, and the 18-digit
fraction with trailing zeros trimmed, which denotes exactly `n / 10^18`. -/
def formatEtherVal (n : Nat) : ℚ :=
  (n : ℚ) / 10 ^ 18

/-! ### Contract data model (`StakingContract.ts`) -/

/-- The `StakingStats` interface of `StakingContract.ts`.  Note that it has
no `dailyRewards` field. -/
structure StakingStats where
  totalStaked : Nat
  rewardRate : Nat
  rewardForDuration : Nat
  isPaused : Bool
deriving DecidableEq, Repr

/-- The `UserStats` interface of `StakingContract.ts`. -/
structure UserStats where
  stakedAmount : Nat
  earnedRewards : Nat
  stakingPoints : Nat
  stakingTime : Nat
deriving DecidableEq, Repr

/-- `getStakingStats` of `StakingContract.ts`: the three reads run under a
single try/catch (`Promise.all`), so if any of them rejects the catch branch
returns the all-default record; otherwise `rewardForDuration` is
`rewardRate * 604800`. -/
def getStakingStats (rTotal rRate : Except String Nat) (rPaused : Except String Bool) :
    StakingStats :=
  match rTotal, rRate, rPaused with
  | .ok t, .ok r, .ok p =>
    { totalStaked := t, rewardRate := r, rewardForDuration := r * 604800, isPaused := p }
  | _, _, _ =>
    { totalStaked := 0, rewardRate := 0, rewardForDuration := 0, isPaused := false }

/-- `getUserStats` of `StakingContract.ts`: same all-or-defaults shape. -/
def getUserStats (rBal rEarned rPoints rTime : Except String Nat) : UserStats :=
  match rBal, rEarned, rPoints, rTime with
  | .ok b, .ok e, .ok p, .ok t =>
    { stakedAmount := b, earnedRewards := e, stakingPoints := p, stakingTime := t }
  | _, _, _, _ =>
    { stakedAmount := 0, earnedRewards := 0, stakingPoints := 0, stakingTime := 0 }

/-- `checkRole` of `StakingContract.ts`: the body constructs the contract
and then returns `contract.read.hasRole([...])` WITHOUT `await`, so the
try/catch intercepts only synchronous throws of the body (modelled by
`contractOk = false`), for which the catch resolves `false`; the returned
promise is adopted after the function has exited, so a rejection of the
`hasRole` read itself escapes the catch and `checkRole` rejects with that
error. -/
def checkRole (contractOk : Bool) (rHasRole : Except String Bool) :
    Except String Bool :=
  if contractOk then rHasRole else .ok false

/-- `safeRead` of the `part_009` revision: awaits the read and returns the
fallback value when it rejects. -/
def safeRead {α : Type} (fn : Except String α) (fallback : α) : α :=
  match fn with
  | .ok a => a
  | .error _ => fallback

/-- `checkRole` of the `part_009` revision: the `hasRole` read goes through
`safeRead` (which awaits it) with fallback `false`, so every read error
resolves to `false`. -/
def checkRoleSafeRead (rHasRole : Except String Bool) : Bool :=
  safeRead rHasRole false

/-! ### calculateAPR (`StakingDashboard.tsx`)

`calculateAPR` reads `stakingStats?.dailyRewards` and
`stakingStats?.totalStaked`.  `APRView` records what those two property
accesses yield on the `stakingStats` state value: `none` models a JavaScript
`undefined` (state never set, or record without the property). -/
structure APRView where
  dailyRewards : Option Nat
  totalStaked : Option Nat
deriving DecidableEq, Repr

/-- Property access on a `StakingStats` record: the interface has a
`totalStaked` field but no `dailyRewards` field, so
`stakingStats.dailyRewards` evaluates to `undefined`. -/
def viewOfStats (s : StakingStats) : APRView :=
  { dailyRewards := none, totalStaked := some s.totalStaked }

/-- `calculateAPR` of `StakingDashboard.tsx`: returns 0 when
`stakingStats?.dailyRewards` or `stakingStats?.totalStaked` is falsy
(`undefined` or `0n`), otherwise
`(Number(formatEther(dailyRewards)) * 365 / Number(formatEther(totalStaked))) * 100`
guarded by `totalStaked > 0`.  The float arithmetic is modelled exactly
over `ℚ`. -/
def calculateAPR (stakingStats : Option APRView) : ℚ :=
  match stakingStats with
  | none => 0
  | some v =>
    match v.dailyRewards, v.totalStaked with
    | some d, some t =>
      if d = 0 ∨ t = 0 then 0
      else
        let dailyRewards : ℚ := (d : ℚ) / 10 ^ 18
        let totalStaked : ℚ := (t : ℚ) / 10 ^ 18
        if 0 < totalStaked then dailyRewards * 365 / totalStaked * 100 else 0
    | _, _ => 0

/-! ### Dashboard transaction handlers (`StakingDashboard.tsx`)

Each handler is modelled as a function from its inputs and an environment of
remote-call outcomes to the ordered list of remote actions it performed plus
the error (if any) that the JavaScript code would have caught.  The
environment carries the connected `chainId` as reported by the client; note
that none of the transaction handlers reads it (only `fetchData` does). -/

/-- Remote actions a dashboard handler can perform, in submission order. -/
inductive StakeEv where
  | readAllowance
  | submitApprove (amt : Nat)
  | approveReceipt
  | estimateGas
  | submitStake (amt : Nat)
  | stakeReceipt
  | submitWithdraw (amt : Nat)
  | withdrawReceipt
  | submitGetReward
  | claimReceipt
  | refetch
deriving DecidableEq, Repr

/-- Errors thrown inside the dashboard handlers (caught by their catch
blocks and surfaced via `setError`). -/
inductive StakeErr where
  | amountNotPositive
  | overMax
  | insufficientBalance
  | insufficientStaked
  | txFailed
deriving DecidableEq, Repr

/-- The message string of each thrown validation error. -/
def stakeErrMsg : StakeErr → String
  | .amountNotPositive => "Amount must be greater than 0"
  | .overMax => "Amount exceeds maximum stake limit of 1,000,000 BRAIDS"
  | .insufficientBalance => "Insufficient BRAIDS balance"
  | .insufficientStaked => "Insufficient staked amount"
  | .txFailed => "Transaction failed"

/-- Environment of remote-call outcomes seen by the dashboard handlers.
`chainId` is what `publicClient.getChainId()` reports; `braidsBalance` is
the `useBalance` hook data in base units (`none` when the hook has no data);
`allowance` is the result of the allowance read; `gasEstimate` is the result
of `estimateContractGas` (`none` when the estimate call throws); the `...Ok`
flags tell whether each submission / receipt wait resolves. -/
structure DashEnv where
  chainId : Nat
  braidsBalance : Option Nat
  allowance : Nat
  approveSubmitOk : Bool
  approveWaitOk : Bool
  gasEstimate : Option Nat
  stakeSubmitOk : Bool
  stakeWaitOk : Bool
  withdrawSubmitOk : Bool
  withdrawWaitOk : Bool
  claimSubmitOk : Bool
  claimWaitOk : Bool
deriving DecidableEq, Repr

/-- `parseEther("1000000")`, the maximum stake accepted by `handleStake`. -/
def maxStakeWei : Nat := parseEther { ip := 1000000, fd := [] }

/-- Tail of `handleStake` after validation and the allowance step: gas
estimation, then the stake submission and its receipt wait, then the
re-fetch.  A gas-estimation failure aborts before any stake submission. -/
def stakeGasPhase (evs : List StakeEv) (p : Nat) (env : DashEnv) :
    List StakeEv × Option StakeErr :=
  let evs1 := evs ++ [StakeEv.estimateGas]
  match env.gasEstimate with
  | none => (evs1, some .txFailed)
  | some _ =>
    if env.stakeSubmitOk = false then (evs1, some .txFailed)
    else
      let evs2 := evs1 ++ [StakeEv.submitStake p]
      if env.stakeWaitOk = false then (evs2, some .txFailed)
      else (evs2 ++ [StakeEv.stakeReceipt, StakeEv.refetch], none)

/-- `handleStake` of `StakingDashboard.tsx`: empty input returns at once;
then the parsed amount is checked against 0, the 1,000,000-token maximum and
the wallet balance (the balance check is skipped when the balance hook has
no data); then the allowance is read and, when it is below the amount, an
approve is submitted and awaited before gas estimation and the stake
submission.  The `chainId` field of the environment is never consulted. -/
def handleStake (stakeAmount : Option Amount) (env : DashEnv) :
    List StakeEv × Option StakeErr :=
  match stakeAmount with
  | none => ([], none)
  | some a =>
    let p := parseEther a
    if p = 0 then ([], some .amountNotPositive)
    else if maxStakeWei < p then ([], some .overMax)
    else if (match env.braidsBalance with | some b => decide (b < p) | none => false) then
      ([], some .insufficientBalance)
    else
      let ev1 := [StakeEv.readAllowance]
      if env.allowance < p then
        if env.approveSubmitOk = false then (ev1, some .txFailed)
        else
          let ev2 := ev1 ++ [StakeEv.submitApprove p]
          if env.approveWaitOk = false then (ev2, some .txFailed)
          else stakeGasPhase (ev2 ++ [StakeEv.approveReceipt]) p env
      else stakeGasPhase ev1 p env

/-- `handleUnstake` of `StakingDashboard.tsx`: empty input returns at once;
the parsed amount is checked against 0, then against the staked amount (the
check `userStats?.stakedAmount && parsedAmount > userStats.stakedAmount`
is skipped when `userStats` is unset or its `stakedAmount` is `0n`, both
falsy); then the withdraw transaction is submitted and awaited. -/
def handleUnstake (unstakeAmount : Option Amount) (userStats : Option UserStats)
    (env : DashEnv) : List StakeEv × Option StakeErr :=
  match unstakeAmount with
  | none => ([], none)
  | some a =>
    let p := parseEther a
    if p = 0 then ([], some .amountNotPositive)
    else if (match userStats with
             | some u => u.stakedAmount != 0 && decide (u.stakedAmount < p)
             | none => false) then
      ([], some .insufficientStaked)
    else
      if env.withdrawSubmitOk = false then ([], some .txFailed)
      else
        let ev := [StakeEv.submitWithdraw p]
        if env.withdrawWaitOk = false then (ev, some .txFailed)
        else (ev ++ [StakeEv.withdrawReceipt, StakeEv.refetch], none)

/-- `handleClaim` of `StakingDashboard.tsx`: returns immediately when
`userStats?.earnedRewards` is falsy or `<= 0n`; otherwise submits the
`getReward` transaction and awaits its receipt. -/
def handleClaim (userStats : Option UserStats) (env : DashEnv) :
    List StakeEv × Option StakeErr :=
  match userStats with
  | none => ([], none)
  | some u =>
    if u.earnedRewards = 0 then ([], none)
    else
      if env.claimSubmitOk = false then ([], some .txFailed)
      else
        let ev := [StakeEv.submitGetReward]
        if env.claimWaitOk = false then (ev, some .txFailed)
        else (ev ++ [StakeEv.claimReceipt, StakeEv.refetch], none)

/-- `handleRestake` of `StakingDashboard.tsx`: same guard as `handleClaim`;
then `getReward` is submitted and awaited, and a stake of the earned amount
is submitted and awaited.  The claim flags of the environment govern the
`getReward` step and the stake flags govern the stake step. -/
def handleRestake (userStats : Option UserStats) (env : DashEnv) :
    List StakeEv × Option StakeErr :=
  match userStats with
  | none => ([], none)
  | some u =>
    if u.earnedRewards = 0 then ([], none)
    else
      if env.claimSubmitOk = false then ([], some .txFailed)
      else
        let ev := [StakeEv.submitGetReward]
        if env.claimWaitOk = false then (ev, some .txFailed)
        else
          let ev2 := ev ++ [StakeEv.claimReceipt]
          if env.stakeSubmitOk = false then (ev2, some .txFailed)
          else
            let ev3 := ev2 ++ [StakeEv.submitStake u.earnedRewards]
            if env.stakeWaitOk = false then (ev3, some .txFailed)
            else (ev3 ++ [StakeEv.stakeReceipt, StakeEv.refetch], none)

/-- The component state touched by `fetchData`. -/
structure DashState where
  stakingStats : Option StakingStats
  userStats : Option UserStats
  error : Option String
deriving DecidableEq, Repr

/-- `fetchData` of `StakingDashboard.tsx` (address and client assumed
present, otherwise it returns before doing anything): when the reported
chain id differs from 2020 it throws "Please connect to Ronin Mainnet",
which the catch block stores in the error state, leaving both stats
snapshots unchanged; otherwise both fetches run (each with
`.catch(() => null)`) and the stats are updated only when both produced a
value. -/
def fetchData (chainId : Nat) (fetchedStats : Option StakingStats)
    (fetchedUser : Option UserStats) (st : DashState) : DashState :=
  if chainId ≠ 2020 then
    { st with error := some "Please connect to Ronin Mainnet" }
  else
    match fetchedStats, fetchedUser with
    | some s, some u => { stakingStats := some s, userStats := some u, error := none }
    | _, _ => { st with error := some "Failed to fetch staking data" }

/-- The disabled condition of the Claim button:
`!userStats?.earnedRewards || userStats.earnedRewards <= 0n ||
transactionInProgress || isLoading`. -/
def claimButtonDisabled (userStats : Option UserStats)
    (transactionInProgress isLoading : Bool) : Bool :=
  (match userStats with
   | none => true
   | some u => u.earnedRewards = 0) || transactionInProgress || isLoading

/-! ### Admin deposit flow (`AdminDashboard`, `handleDepositRewards`) -/

/-- Remote actions of the deposit flow, in order. -/
inductive DepEv where
  | readBalance
  | readAllowance
  | submitApprove (amt : Nat)
  | approveConfirmed
  | submitDeposit (amt : Nat)
  | depositConfirmed
deriving DecidableEq, Repr

/-- The transaction-status state machine of the admin dashboard. -/
inductive TxStatus where
  | idle
  | preparing
  | pending
  | success
  | error
deriving DecidableEq, Repr

/-- Environment of remote-call outcomes for `handleDepositRewards`. -/
structure DepositEnv where
  balance : Nat
  allowance : Nat
  approveSubmitOk : Bool
  approveWaitOk : Bool
  depositSubmitOk : Bool
  depositWaitOk : Bool
deriving DecidableEq, Repr

/-- `validateDepositAmount`: the amount string must be nonempty, parse to a
number, and be strictly positive.  On the accepted input grammar this means
the denoted value is positive (an all-zero input such as "0" or "." fails
the `> 0` check, and `parseFloat` yields `NaN` only on the empty-like
inputs, modelled by `none`). -/
def validateDepositAmount (amount : Option Amount) : Bool :=
  match amount with
  | none => false
  | some a => a.ip != 0 || a.fd.any (fun d => d.val != 0)

/-- Tail of `handleDepositRewards`: the deposit submission and its receipt
wait (second try block, error message "Deposit transaction failed"). -/
def depositPhase (evs : List DepEv) (p : Nat) (env : DepositEnv) :
    List DepEv × Option String :=
  if env.depositSubmitOk = false then (evs, some "Deposit transaction failed")
  else
    let evs2 := evs ++ [DepEv.submitDeposit p]
    if env.depositWaitOk = false then (evs2, some "Deposit transaction failed")
    else (evs2 ++ [DepEv.depositConfirmed], none)

/-- `handleDepositRewards` of the admin dashboard: returns at once unless
the input validates and the deposit status is idle; then reads the balance
(aborting when the parsed amount exceeds it), reads the allowance and, when
the allowance is below the amount, submits an approve and awaits its receipt
inside a try block whose catch aborts with "Approval transaction failed";
only after that does the deposit phase run. -/
def handleDepositRewards (depositAmount : Option Amount) (status : TxStatus)
    (env : DepositEnv) : List DepEv × Option String :=
  if validateDepositAmount depositAmount = false ∨ status ≠ TxStatus.idle then ([], none)
  else
    match depositAmount with
    | none => ([], none)
    | some a =>
      let p := parseEther a
      let ev0 := [DepEv.readBalance]
      if env.balance < p then (ev0, some "Insufficient BRAIDS balance")
      else
        let ev1 := ev0 ++ [DepEv.readAllowance]
        if env.allowance < p then
          if env.approveSubmitOk = false then (ev1, some "Approval transaction failed")
          else
            let ev2 := ev1 ++ [DepEv.submitApprove p]
            if env.approveWaitOk = false then (ev2, some "Approval transaction failed")
            else depositPhase (ev2 ++ [DepEv.approveConfirmed]) p env
        else depositPhase ev1 p env

/-! ### Deployment script -/

/-- The environment variables required by the deployment script. -/
structure DeployEnv where
  alchemyApiKey : Option String
  privateKey : Option String
  deployerAddress : Option String
  braidsTokenAddress : Option String
deriving DecidableEq, Repr

/-- `validateEnvironment` of the deployment script: exits with status 1
(`some 1`) when any required variable is missing, or when `PRIVATE_KEY`
does not start with "0x" or has length different from 66; returns `none`
(no exit) otherwise. -/
def validateEnvironment (env : DeployEnv) : Option Nat :=
  if env.alchemyApiKey.isNone || env.privateKey.isNone
      || env.deployerAddress.isNone || env.braidsTokenAddress.isNone then
    some 1
  else
    let privateKey := env.privateKey.getD ""
    if privateKey.startsWith "0x" = false ∨ privateKey.length ≠ 66 then some 1
    else none

/-- The side effects of the deployment script after validation. -/
inductive DeployEv where
  | createProvider
  | createWallet
  | deployContract
  | saveConfig
deriving DecidableEq, Repr

/-- `deploy` of the deployment script: runs `validateEnvironment` first and,
when it exits, performs no further step (in particular no RPC provider is
constructed and no network call is made); otherwise it constructs the
provider and wallet and deploys, exiting with status 1 from the catch block
when the deployment itself fails (`deployOk = false`). -/
def deploy (env : DeployEnv) (deployOk : Bool) : List DeployEv × Option Nat :=
  match validateEnvironment env with
  | some code => ([], some code)
  | none =>
    if deployOk then
      ([DeployEv.createProvider, DeployEv.createWallet, DeployEv.deployContract,
        DeployEv.saveConfig], none)
    else
      ([DeployEv.createProvider, DeployEv.createWallet, DeployEv.deployContract], some 1)

/-! ### Retry helpers (`alchemy.ts`) -/

/-- Loop body of `retryOperation`: attempt `op i` for `i` ranging over
`[0, maxRetries)` (the fuel argument enforces the loop bound and starts at
`maxRetries`); a failed attempt other than the last sleeps
`1000 * (i + 1)` milliseconds and retries, the last failed attempt rethrows
its error without sleeping.  The result is the final outcome (`none` for
the unreachable loop fall-through, which in JavaScript returns `undefined`)
together with the list of sleep durations. -/
def retryAux {α : Type} (op : Nat → Except String α) (maxRetries : Nat) :
    Nat → Nat → Option (Except String α) × List Nat
  | 0, _ => (none, [])
  | fuel + 1, i =>
    match op i with
    | .ok a => (some (.ok a), [])
    | .error e =>
      if i = maxRetries - 1 then (some (.error e), [])
      else
        let r := retryAux op maxRetries fuel (i + 1)
        (r.1, 1000 * (i + 1) :: r.2)

/-- `retryOperation` of `alchemy.ts` with its default `maxRetries = 3`
(every call site uses the default). -/
def retryOperation {α : Type} (op : Nat → Except String α) :
    Option (Except String α) × List Nat :=
  retryAux op 3 3 0

/-- The tuple returned by the `getValidatorInfo` contract read. -/
structure ValidatorInfo where
  totalStake : Nat
  commission : Nat
  apr : Nat
  uptime : Nat
  lastSignedBlock : Nat
deriving DecidableEq, Repr

/-- The record `getValidatorData` returns (string-rendered fields, as in the
source). -/
structure ValidatorData where
  totalStake : String
  commission : String
  uptime : String
  lastSignedBlock : String
  apr : String
  totalDelegators : Nat
deriving DecidableEq, Repr

/-- `(Number(n) / 100).toFixed(2)` for a natural `n` within float
precision: the integer part of `n / 100` followed by the two-digit
remainder. -/
def fixed2 (n : Nat) : String :=
  toString (n / 100) ++ "." ++ (if n % 100 < 10 then "0" else "") ++ toString (n % 100)

/-- The hard-coded record returned from the catch branch of
`getValidatorData`. -/
def fallbackValidatorData : ValidatorData :=
  { totalStake := "4000000000000000000000", commission := "10", uptime := "99.98",
    lastSignedBlock := "1234567", apr := "12.5", totalDelegators := 3 }

/-- `getValidatorData` of `alchemy.ts`: both reads run through
`retryOperation` under `Promise.all`; when either still fails after the
retries the catch branch returns the hard-coded fallback record, otherwise
the fetched values are rendered.  Delegators are modelled by their stake
values (only the length is used). -/
def getValidatorData (infoRead : Nat → Except String ValidatorInfo)
    (delRead : Nat → Except String (List Nat)) : ValidatorData :=
  match (retryOperation infoRead).1, (retryOperation delRead).1 with
  | some (.ok info), some (.ok dels) =>
    { totalStake := toString info.totalStake
      commission := fixed2 info.commission
      uptime := fixed2 info.uptime
      lastSignedBlock := toString info.lastSignedBlock
      apr := fixed2 info.apr
      totalDelegators := dels.length }
  | _, _ => fallbackValidatorData

/-- `getTokenBalance` of `alchemy.ts`: the balance read runs through
`retryOperation`; on persistent failure the catch branch returns "0". -/
def getTokenBalance (balRead : Nat → Except String Nat) : String :=
  match (retryOperation balRead).1 with
  | some (.ok b) => toString b
  | _ => "0"

/-! ### Shared concrete environment for witnesses -/

/-- A concrete environment: wrong network (chain id 1), a funded wallet,
ample allowance, and all remote calls succeeding. -/
def sampleEnv : DashEnv :=
  { chainId := 1, braidsBalance := some (2 * 10 ^ 18), allowance := 10 ^ 24,
    approveSubmitOk := true, approveWaitOk := true, gasEstimate := some 100000,
    stakeSubmitOk := true, stakeWaitOk := true, withdrawSubmitOk := true,
    withdrawWaitOk := true, claimSubmitOk := true, claimWaitOk := true }

/-! ### Theorems -/

/-- C2: the spec and `calculateAPR` intend the rendered APR estimate to be
dailyRewards × 365 / totalStaked × 100 on the fetched snapshot, but the
`StakingStats` record produced by `getStakingStats` has no `dailyRewards`
field, so the property access yields `undefined` and `calculateAPR` returns
0 even on a snapshot with positive `totalStaked` and positive reward rate:
evaluated at the concrete failing input (totalSupply = 2·10^18,
rewardRate = 10^18, unpaused), the total staked is positive yet the
rendered APR is 0. -/
theorem calculateAPR_zero_on_fetched_stats :
    (getStakingStats (.ok (2 * 10 ^ 18)) (.ok (10 ^ 18)) (.ok false)).totalStaked
      = 2 * 10 ^ 18 ∧
    0 < (getStakingStats (.ok (2 * 10 ^ 18)) (.ok (10 ^ 18)) (.ok false)).totalStaked ∧
    calculateAPR (some (viewOfStats
      (getStakingStats (.ok (2 * 10 ^ 18)) (.ok (10 ^ 18)) (.ok false)))) = 0 := by
  refine ⟨rfl, ?_, rfl⟩
  norm_num [getStakingStats]

/-- C5: when the earned rewards are absent (user stats never fetched) or
zero, `handleClaim` returns immediately without submitting any transaction
and without raising an error, and the Claim button is rendered disabled. -/
theorem claim_noop_without_earned_rewards :
    ∀ (us : Option UserStats) (env : DashEnv) (tp il : Bool),
      (us = none ∨ ∃ u, us = some u ∧ u.earnedRewards = 0) →
      handleClaim us env = ([], none) ∧ claimButtonDisabled us tp il = true := by
  rintro us env tp il (rfl | ⟨u, rfl, h⟩)
  · exact ⟨rfl, rfl⟩
  · exact ⟨by simp [handleClaim, h], by simp [claimButtonDisabled, h]⟩

/-- C5 witness: with no fetched user stats, the claim handler performs no
action and the button is disabled. -/
theorem claim_noop_without_earned_rewards_witness :
    handleClaim none sampleEnv = ([], none) ∧ claimButtonDisabled none false false = true :=
  claim_noop_without_earned_rewards none sampleEnv false false (Or.inl rfl)

/-- C8: `getStakingStats` never rejects; when any of the three underlying
reads fails it resolves to the all-default snapshot (`totalStaked = 0`,
`rewardRate = 0`, `rewardForDuration = 0`, `isPaused = false`), identical
to an empty, unpaused pool. -/
theorem getStakingStats_defaults_on_error :
    ∀ (rTotal rRate : Except String Nat) (rPaused : Except String Bool),
      ((∃ e, rTotal = .error e) ∨ (∃ e, rRate = .error e) ∨ (∃ e, rPaused = .error e)) →
      getStakingStats rTotal rRate rPaused
        = { totalStaked := 0, rewardRate := 0, rewardForDuration := 0, isPaused := false } := by
  intro rTotal rRate rPaused h
  rcases h with ⟨e, rfl⟩ | ⟨e, rfl⟩ | ⟨e, rfl⟩
  · cases rRate <;> cases rPaused <;> rfl
  · cases rTotal <;> cases rPaused <;> rfl
  · cases rTotal <;> cases rRate <;> rfl

/-- C8 witness: a failing totalSupply read yields the all-default snapshot. -/
theorem getStakingStats_defaults_on_error_witness :
    getStakingStats (.error "rpc") (.ok 5) (.ok true)
      = { totalStaked := 0, rewardRate := 0, rewardForDuration := 0, isPaused := false } :=
  getStakingStats_defaults_on_error _ _ _ (Or.inl ⟨"rpc", rfl⟩)

/-- C9 counterexample: at a concrete failing `hasRole` read (the contract
construction itself not throwing), `checkRole` of `StakingContract.ts`
rejects with the read error instead of resolving `false`: the promise is
returned without `await`, so the rejection bypasses the catch.  This
falsifies the claim that every read error resolves to `false`. -/
theorem checkRole_rejects_on_read_error :
    checkRole true (.error "rpc") = .error "rpc" ∧
    checkRole true (.error "rpc") ≠ .ok false := by
  refine ⟨rfl, ?_⟩
  simp [checkRole]

/-- C9 amended: `checkRole` of `StakingContract.ts` resolves `false` only
when its synchronous body throws (the only path its catch covers); since the
`hasRole` promise is returned without `await`, a rejection of the read
itself propagates and `checkRole` rejects with that error (a successful
read passes through unchanged), so a read failure is distinguishable from
the address not holding the role.  The `part_009` revision, which awaits
the read through `safeRead` with fallback `false`, does resolve `false` on
every read error. -/
theorem checkRole_error_paths :
    (∀ e : String, checkRole true (.error e) = .error e) ∧
    (∀ r : Except String Bool, checkRole false r = .ok false) ∧
    (∀ b : Bool, checkRole true (.ok b) = .ok b) ∧
    (∀ e : String, checkRoleSafeRead (.error e) = false) :=
  ⟨fun _ => rfl, fun _ => rfl, fun _ => rfl, fun _ => rfl⟩

/-- C9 amended witness: concrete instances of the amended claim. -/
theorem checkRole_error_paths_witness :
    checkRole true (.error "rpc") = .error "rpc" ∧
    checkRole false (.error "rpc") = .ok false ∧
    checkRoleSafeRead (.error "rpc") = false :=
  ⟨checkRole_error_paths.1 "rpc", checkRole_error_paths.2.1 (.error "rpc"),
   checkRole_error_paths.2.2.2 "rpc"⟩

/-- C10: a stake input whose parsed base-unit amount exceeds
`parseEther("1000000")` makes `handleStake` throw the maximum-stake error,
whose message is "Amount exceeds maximum stake limit of 1,000,000 BRAIDS",
with no approve or stake transaction submitted. -/
theorem handleStake_rejects_over_max :
    ∀ (a : Amount) (env : DashEnv), a.fd.length ≤ 18 → maxStakeWei < parseEther a →
      handleStake (some a) env = ([], some .overMax) ∧
      stakeErrMsg .overMax = "Amount exceeds maximum stake limit of 1,000,000 BRAIDS" := by
  intro a env _ h
  have h0 : ¬ parseEther a = 0 := by
    intro hz
    rw [hz] at h
    exact absurd h (by simp)
  exact ⟨by simp [handleStake, h0, h], rfl⟩

/-- C10 witness: staking 2,000,000 tokens is rejected with the
maximum-stake error and no transaction. -/
theorem handleStake_rejects_over_max_witness :
    ({ ip := 2000000, fd := [] } : Amount).fd.length ≤ 18 ∧
    maxStakeWei < parseEther { ip := 2000000, fd := [] } ∧
    handleStake (some { ip := 2000000, fd := [] }) sampleEnv = ([], some .overMax) :=
  ⟨by decide, by decide,
   (handleStake_rejects_over_max { ip := 2000000, fd := [] } sampleEnv (by decide)
     (by decide)).1⟩

/-- C1 counterexample: with the client reporting chain id 1 (not the Ronin
mainnet id 2020), a funded wallet and a sufficient allowance,
`handleStake` on the input "1" still submits the stake write-contract call:
the handler does not consult the chain id, so the claimed refusal does not
happen. -/
theorem handleStake_submits_on_wrong_network :
    sampleEnv.chainId ≠ 2020 ∧
    StakeEv.submitStake (10 ^ 18) ∈ (handleStake (some { ip := 1, fd := [] }) sampleEnv).1 := by
  constructor
  · decide
  · decide

/-- C1 amended: a wrong network only blocks the data path, not the
transaction handlers.  When the reported chain id differs from 2020,
`fetchData` surfaces "Please connect to Ronin Mainnet" and leaves both
stats snapshots unchanged, and `handleClaim` and `handleRestake` submit
nothing when the earned rewards were never fetched (or are zero); but
`handleStake` and `handleUnstake` never consult the chain id: their
behaviour is identical on every chain, so they can issue write-contract
calls while the chain id differs from 2020. -/
theorem wrong_network_blocks_fetch_not_handlers :
    (∀ (chainId : Nat) (fs : Option StakingStats) (fu : Option UserStats) (st : DashState),
        chainId ≠ 2020 →
        fetchData chainId fs fu st
          = { st with error := some "Please connect to Ronin Mainnet" }) ∧
    (∀ (amt : Option Amount) (env : DashEnv) (c : Nat),
        handleStake amt { env with chainId := c } = handleStake amt env) ∧
    (∀ (amt : Option Amount) (us : Option UserStats) (env : DashEnv) (c : Nat),
        handleUnstake amt us { env with chainId := c } = handleUnstake amt us env) ∧
    (∀ (us : Option UserStats) (env : DashEnv),
        (us = none ∨ ∃ u, us = some u ∧ u.earnedRewards = 0) →
        handleClaim us env = ([], none) ∧ handleRestake us env = ([], none)) := by
  refine ⟨?_, ?_, ?_, ?_⟩
  · intro chainId fs fu st h
    simp [fetchData, h]
  · intro amt env c
    cases amt <;> rfl
  · intro amt us env c
    cases amt <;> rfl
  · rintro us env (rfl | ⟨u, rfl, h⟩)
    · exact ⟨rfl, rfl⟩
    · exact ⟨by simp [handleClaim, h], by simp [handleRestake, h]⟩

/-- C1 amended witness: on chain id 1 the fetch surfaces the wrong-network
message without touching the snapshots, and the claim handler with no
fetched user stats submits nothing. -/
theorem wrong_network_blocks_fetch_not_handlers_witness :
    fetchData 1 none none { stakingStats := none, userStats := none, error := none }
      = { stakingStats := none, userStats := none,
          error := some "Please connect to Ronin Mainnet" } ∧
    handleClaim none sampleEnv = ([], none) :=
  ⟨wrong_network_blocks_fetch_not_handlers.1 1 none none _ (by decide),
   (wrong_network_blocks_fetch_not_handlers.2.2.2 none sampleEnv (Or.inl rfl)).1⟩

/-- C3: when the parsed deposit amount exceeds the current allowance (and
the input validates, the flow is idle and the balance suffices), the
approve transaction is submitted and its receipt awaited strictly before
the deposit phase runs, and when the approve submission or its receipt wait
fails the flow aborts with "Approval transaction failed" and the
depositRewards transaction is never submitted. -/
theorem deposit_approve_before_deposit :
    ∀ (a : Amount) (env : DepositEnv),
      validateDepositAmount (some a) = true →
      parseEther a ≤ env.balance →
      env.allowance < parseEther a →
      (env.approveSubmitOk = false →
        handleDepositRewards (some a) .idle env
          = ([DepEv.readBalance, DepEv.readAllowance], some "Approval transaction failed")) ∧
      (env.approveSubmitOk = true → env.approveWaitOk = false →
        handleDepositRewards (some a) .idle env
          = ([DepEv.readBalance, DepEv.readAllowance, DepEv.submitApprove (parseEther a)],
             some "Approval transaction failed")) ∧
      (env.approveSubmitOk = true → env.approveWaitOk = true →
        handleDepositRewards (some a) .idle env
          = depositPhase [DepEv.readBalance, DepEv.readAllowance,
              DepEv.submitApprove (parseEther a), DepEv.approveConfirmed]
              (parseEther a) env) ∧
      ((env.approveSubmitOk = false ∨ env.approveWaitOk = false) →
        ∀ q, DepEv.submitDeposit q ∉ (handleDepositRewards (some a) .idle env).1) := by
  intro a env hval hbal hallow
  have hnb : ¬ env.balance < parseEther a := not_lt.mpr hbal
  refine ⟨?_, ?_, ?_, ?_⟩
  · intro hs
    simp [handleDepositRewards, hval, hnb, hallow, hs]
  · intro hs hw
    simp [handleDepositRewards, hval, hnb, hallow, hs, hw]
  · intro hs hw
    simp [handleDepositRewards, hval, hnb, hallow, hs, hw]
  · rintro (hs | hw) q
    · simp [handleDepositRewards, hval, hnb, hallow, hs]
    · cases hs : env.approveSubmitOk
      · simp [handleDepositRewards, hval, hnb, hallow, hs]
      · simp [handleDepositRewards, hval, hnb, hallow, hs, hw]

/-- C3 witness: depositing 1 token with zero allowance and a failing
approve submission aborts after the two reads, and no depositRewards
transaction appears in the trace. -/
theorem deposit_approve_before_deposit_witness :
    handleDepositRewards (some { ip := 1, fd := [] }) .idle
        { balance := 10 ^ 19, allowance := 0, approveSubmitOk := false,
          approveWaitOk := true, depositSubmitOk := true, depositWaitOk := true }
      = ([DepEv.readBalance, DepEv.readAllowance], some "Approval transaction failed") :=
  (deposit_approve_before_deposit { ip := 1, fd := [] }
    { balance := 10 ^ 19, allowance := 0, approveSubmitOk := false,
      approveWaitOk := true, depositSubmitOk := true, depositWaitOk := true }
    (by decide) (by decide) (by decide)).1 rfl

/-- C4: whenever `PRIVATE_KEY` is missing, does not start with "0x", or has
length different from 66, the deployment script exits with status 1 during
environment validation and performs no further step: no RPC provider is
constructed and no network call is made. -/
theorem deploy_exits_on_malformed_private_key :
    ∀ (env : DeployEnv) (deployOk : Bool),
      (env.privateKey = none ∨
        ∃ k, env.privateKey = some k ∧ (k.startsWith "0x" = false ∨ k.length ≠ 66)) →
      deploy env deployOk = ([], some 1) := by
  intro env deployOk h
  have hv : validateEnvironment env = some 1 := by
    rcases h with hnone | ⟨k, hk, hbad⟩
    · simp [validateEnvironment, hnone]
    · unfold validateEnvironment
      rw [hk]
      simp only [Option.getD_some]
      split_ifs with h1
      · rfl
      · rfl
  simp [deploy, hv]

/-- C4 witness: a private key of the wrong length ("0x12") makes the script
exit with status 1 before any deployment step. -/
theorem deploy_exits_on_malformed_private_key_witness :
    deploy { alchemyApiKey := some "key", privateKey := some "0x12",
             deployerAddress := some "dep", braidsTokenAddress := some "tok" } true
      = ([], some 1) :=
  deploy_exits_on_malformed_private_key _ true
    (Or.inr ⟨"0x12", rfl, Or.inr (by decide)⟩)

/-- C6: for every amount accepted by the input filter with at most 18
fractional digits, converting to base units with `parseEther` and rendering
back with `formatEther` denotes exactly the original decimal value. -/
theorem parseEther_formatEther_roundtrip :
    ∀ a : Amount, a.fd.length ≤ 18 → formatEtherVal (parseEther a) = amountVal a := by
  intro a h
  unfold formatEtherVal parseEther amountVal
  have key : (10 : ℚ) ^ (18 - a.fd.length) * 10 ^ a.fd.length = 10 ^ 18 := by
    rw [← pow_add, Nat.sub_add_cancel h]
  have h10 : ((10 : ℚ) ^ a.fd.length) ≠ 0 := by positivity
  have h18 : ((10 : ℚ) ^ 18) ≠ 0 := by positivity
  push_cast
  field_simp
  linear_combination (fracNat a.fd : ℚ) * key

/-- C6 witness: the input "1.5" parses to 1.5·10^18 base units and formats
back to the value 3/2. -/
theorem parseEther_formatEther_roundtrip_witness :
    ({ ip := 1, fd := [(5 : Fin 10)] } : Amount).fd.length ≤ 18 ∧
    formatEtherVal (parseEther { ip := 1, fd := [(5 : Fin 10)] })
      = amountVal { ip := 1, fd := [(5 : Fin 10)] } :=
  ⟨by decide, parseEther_formatEther_roundtrip { ip := 1, fd := [(5 : Fin 10)] } (by decide)⟩

/-- C7: `retryOperation` performs at most 3 attempts (its result depends
only on the first three attempt outcomes), sleeps `1000 * (i + 1)`
milliseconds after failed attempt `i` except the last, rethrows the last
error after the third failed attempt, and the wrapping read helpers then
return their hard-coded default results (`getValidatorData` the fallback
record, `getTokenBalance` the string "0") instead of propagating the
error. -/
theorem retry_bounded_with_fallback :
    (∀ (op : Nat → Except String Nat) (a : Nat),
       op 0 = .ok a → retryOperation op = (some (.ok a), [])) ∧
    (∀ (op : Nat → Except String Nat) (e₀ : String) (a : Nat),
       op 0 = .error e₀ → op 1 = .ok a → retryOperation op = (some (.ok a), [1000])) ∧
    (∀ (op : Nat → Except String Nat) (e : Nat → String),
       (∀ i, i < 3 → op i = .error (e i)) →
       retryOperation op = (some (.error (e 2)), [1000, 2000])) ∧
    (∀ (op₁ op₂ : Nat → Except String Nat),
       (∀ i, i < 3 → op₁ i = op₂ i) → retryOperation op₁ = retryOperation op₂) ∧
    (∀ (infoRead : Nat → Except String ValidatorInfo)
       (delRead : Nat → Except String (List Nat)),
       (∀ i, i < 3 → ∃ e, infoRead i = .error e) →
       getValidatorData infoRead delRead = fallbackValidatorData) ∧
    (∀ (balRead : Nat → Except String Nat),
       (∀ i, i < 3 → ∃ e, balRead i = .error e) →
       getTokenBalance balRead = "0") := by
  have hretry : ∀ (α : Type) (op : Nat → Except String α) (e : Nat → String),
      (∀ i, i < 3 → op i = .error (e i)) →
      retryOperation op = (some (.error (e 2)), [1000, 2000]) := by
    intro α op e h
    have h0 := h 0 (by norm_num)
    have h1 := h 1 (by norm_num)
    have h2 := h 2 (by norm_num)
    simp [retryOperation, retryAux, h0, h1, h2]
  refine ⟨?_, ?_, hretry Nat, ?_, ?_, ?_⟩
  · intro op a h0
    simp [retryOperation, retryAux, h0]
  · intro op e₀ a h0 h1
    simp [retryOperation, retryAux, h0, h1]
  · intro op₁ op₂ h
    have h0 := h 0 (by norm_num)
    have h1 := h 1 (by norm_num)
    have h2 := h 2 (by norm_num)
    simp only [retryOperation, retryAux, h0, h1, h2]
  · intro infoRead delRead h
    have hf : ∀ i, i < 3 →
        infoRead i = .error (match infoRead i with | .error s => s | .ok _ => "") := by
      intro i hi
      obtain ⟨s, hs⟩ := h i hi
      simp [hs]
    have := hretry ValidatorInfo infoRead _ hf
    unfold getValidatorData
    rw [this]
  · intro balRead h
    have hf : ∀ i, i < 3 →
        balRead i = .error (match balRead i with | .error s => s | .ok _ => "") := by
      intro i hi
      obtain ⟨s, hs⟩ := h i hi
      simp [hs]
    have := hretry Nat balRead _ hf
    unfold getTokenBalance
    rw [this]

/-- C7 witness: an operation that fails on every attempt is retried exactly
3 times with sleeps of 1000 and 2000 ms and its last error is rethrown, and
a persistently failing balance read yields the default "0". -/
theorem retry_bounded_with_fallback_witness :
    retryOperation (fun _ => (Except.error "boom" : Except String Nat))
      = (some (.error "boom"), [1000, 2000]) ∧
    getTokenBalance (fun _ => (Except.error "boom" : Except String Nat)) = "0" :=
  ⟨retry_bounded_with_fallback.2.2.1 (fun _ => Except.error "boom") (fun _ => "boom")
     (fun _ _ => rfl),
   retry_bounded_with_fallback.2.2.2.2.2 (fun _ => Except.error "boom")
     (fun _ _ => ⟨"boom", rfl⟩)⟩

end BYAC
